import Mathlib

/-!
# Pick scripting front door (interface/src/raypick/PickScriptingInterface.cpp)

A shallow embedding of the option-defaulting, parent-resolution and joint
classification logic of `PickScriptingInterface`, followed by theorems about it.

Conventions of the embedding

* A `QVariantMap` is an association list; reading a key that is absent yields the
  invalid `QVariant`, as `QMap::operator[]` / `value` do. The non-const
  `operator[]` of the source also inserts an invalid entry for an absent key; such
  entries are not observable through `value`/`isValid` and are not modelled.
* `float` values are an abstract carrier `F`: only the literals `0.0f`, `1.0f` and
  unary minus occur in the source, and they are supplied by `Externals`. Where the
  rounding of a conversion matters, `float32OfInt` gives `(float) i` exactly.
* Everything the source calls but does not define (Qt conversions of foreign
  payloads, GLM helpers, the avatar manager, the spatial parent finder, the pick
  manager) is a field of `Externals`.
* The pick manager is an explicit state of type `M` threaded through the create
  operations; what `getPrevPickResult` needs from it is a field of
  `ResultExternals`.
* The per-frame evaluation pass lives in the pick manager, outside this file; where
  a property is about that pass, `Scheduler` models it from the specification.
-/

namespace PickScriptingInterface

/-! ## Qt value types -/

/-- QUuid as its 128-bit value; the null uuid is the all-zero value. -/
structure QUuid where
  val : Nat
  deriving DecidableEq

/-- Null test of `QUuid::isNull`. -/
def QUuid.isNull (u : QUuid) : Bool := u.val == 0

/-- QString with its null state: `null` is `QString()`, `str s` a non-null string
(possibly empty). -/
inductive QString where
  | null
  | str (s : String)
  deriving DecidableEq

/-- Null test of `QString::isNull`. -/
def QString.isNull : QString → Bool
  | .null => true
  | .str _ => false

/-- Comparison `QString == "literal"`: by content, a null string has empty content. -/
def QString.eqLit : QString → String → Bool
  | .null, lit => lit == ""
  | .str s, lit => s == lit

/-- QVariant, by stored type. `other` stands for every stored type that this file
does not interpret itself (double, nested map, list, ...). -/
inductive QVariant where
  | invalid
  | bool (b : Bool)
  | int (i : Int)
  | uint (n : Nat)
  | string (s : QString)
  | uuid (u : QUuid)
  | other (payload : Nat)
  deriving DecidableEq

/-- Validity test of `QVariant::isValid`: false exactly for the invalid variant. -/
def QVariant.isValid : QVariant → Bool
  | .invalid => false
  | _ => true

/-- QVariantMap as an association list from key to value. -/
abbrev QVariantMap := List (String × QVariant)

/-- Read of `propMap[key]`: the stored value, or the invalid variant when the key is
absent. -/
def QVariantMap.value (m : QVariantMap) (key : String) : QVariant :=
  (m.lookup key).getD QVariant.invalid

/-- The `properties` argument of the create operations: a variant that either
stores a map or stores something else. -/
inductive Properties where
  | map (m : QVariantMap)
  | notMap (v : QVariant)
  deriving DecidableEq

/-- Conversion `QVariant::toMap`: the stored map, or the empty map when the variant
does not store one. -/
def Properties.toMap : Properties → QVariantMap
  | .map m => m
  | .notMap _ => []

/-! ## GLM value types -/

/-- Three-component vector `glm::vec3` over the float carrier. -/
structure Vec3 (F : Type) where
  x : F
  y : F
  z : F
  deriving DecidableEq

/-- Quaternion `glm::quat` over the float carrier. -/
structure Quat (F : Type) where
  w : F
  x : F
  y : F
  z : F
  deriving DecidableEq

/-! ## Pick data model -/

/-- Enumeration `PickQuery::PickType`; `other` is any value outside the named ones
(the script boundary casts an arbitrary 16-bit number to this type). -/
inductive PickType where
  | Ray
  | Stylus
  | Parabola
  | Collision
  | NUM_PICK_TYPES
  | other (n : Nat)
  deriving DecidableEq

/-- Enumeration `PickQuery::JointState`. -/
inductive JointState where
  | JOINT_STATE_NONE
  | JOINT_STATE_LEFT_HAND
  | JOINT_STATE_RIGHT_HAND
  | JOINT_STATE_MOUSE
  deriving DecidableEq

/-- Enumeration `NestableType`; `other` is any category besides the three that the
source tests for. -/
inductive NestableType where
  | Entity
  | Avatar
  | Overlay
  | other (n : Nat)
  deriving DecidableEq

/-- A spatially nestable world object, as far as this file looks at it: its
identifier and its category (`getNestableType`). -/
structure SpatiallyNestable where
  id : QUuid
  nestableType : NestableType
  deriving DecidableEq

/-- A `std::weak_ptr<SpatiallyNestable>`: `none` when empty or expired. -/
abbrev WeakPtr := Option SpatiallyNestable

/-- Operation `weak_ptr::lock`: the shared pointer, null (`none`) when expired. -/
def WeakPtr.lock (w : WeakPtr) : Option SpatiallyNestable := w

/-- The transform node classes constructed by `createTransformNode`, with their
constructor arguments. A null `shared_ptr<TransformNode>` is `none` of the
enclosing `Option`. -/
inductive TransformNode where
  | AvatarTransformNode (avatar : SpatiallyNestable) (jointIndex : Int)
  | OverlayTransformNode (overlay : SpatiallyNestable) (jointIndex : Int)
  | EntityTransformNode (entity : SpatiallyNestable) (jointIndex : Int)
  | NestableTransformNode (nestable : WeakPtr) (jointIndex : Int)
  | PickTransformNode (pickID : Nat)
  | MouseTransformNode
  | MyAvatarHeadTransformNode
  deriving DecidableEq

/-- Bit mask `PickFilter`, as the unsigned value of its flags. -/
structure PickFilter where
  flags : Nat
  deriving DecidableEq

/-- Modelled from the spec: the default constructor `PickFilter()` is declared
outside this file; section 6 gives the default filter as 0 (match nothing) and the
jsdoc as `Picks.PICK_NOTHING`. -/
def PickFilter.default : PickFilter := { flags := 0 }

/-- Enumeration `bilateral::Side`. -/
inductive Side where
  | Left
  | Right
  | Invalid
  deriving DecidableEq

/-- Modelled from the spec: `bilateral::side(int)` is declared outside this file;
section 6 gives `hand` as "stylus side, 0=left,1=right" and section 4.2 as
"Left/Right or Invalid if out of range" (jsdoc: "0 == left, 1 == right. Invalid
otherwise"). -/
def bilateral.side (index : Int) : Side :=
  if index = 0 then Side.Left
  else if index = 1 then Side.Right
  else Side.Invalid

/-- The members of the base class `PickQuery` that the create operations set:
the three constructor arguments, `parentTransform` and the joint state. -/
structure PickQueryBase (F : Type) where
  filter : PickFilter
  maxDistance : F
  enabled : Bool
  parentTransform : Option TransformNode
  jointState : JointState
  deriving DecidableEq

/-- A freshly constructed base: no parent transform, joint state none. -/
def PickQueryBase.make {F : Type} (filter : PickFilter) (maxDistance : F) (enabled : Bool) :
    PickQueryBase F :=
  { filter := filter, maxDistance := maxDistance, enabled := enabled,
    parentTransform := none, jointState := JointState.JOINT_STATE_NONE }

/-- Class `RayPick`. -/
structure RayPick (F : Type) extends PickQueryBase F where
  position : Vec3 F
  direction : Vec3 F
  deriving DecidableEq

/-- Class `StylusPick`. -/
structure StylusPick (F : Type) extends PickQueryBase F where
  side : Side
  deriving DecidableEq

/-- Class `ParabolaPick`. -/
structure ParabolaPick (F : Type) extends PickQueryBase F where
  position : Vec3 F
  direction : Vec3 F
  speed : F
  accelerationAxis : Vec3 F
  rotateAccelerationWithAvatar : Bool
  rotateAccelerationWithParent : Bool
  scaleWithParent : Bool
  deriving DecidableEq

/-- Class `CollisionRegion`: constructed from the whole property map by a
constructor defined outside this file; kept as the map it was built from. -/
structure CollisionRegion where
  source : QVariantMap
  deriving DecidableEq

/-- Class `CollisionPick` (the physics engine handle passed to its constructor is
not represented). -/
structure CollisionPick (F : Type) extends PickQueryBase F where
  collisionRegion : CollisionRegion
  deriving DecidableEq

/-- A `shared_ptr<PickQuery>` to one of the four concrete pick classes. -/
inductive PickQuery (F : Type) where
  | ray (p : RayPick F)
  | stylus (p : StylusPick F)
  | parabola (p : ParabolaPick F)
  | collision (p : CollisionPick F)
  deriving DecidableEq

/-- The base-class part of any pick. -/
def PickQuery.base {F : Type} : PickQuery F → PickQueryBase F
  | .ray p => p.toPickQueryBase
  | .stylus p => p.toPickQueryBase
  | .parabola p => p.toPickQueryBase
  | .collision p => p.toPickQueryBase

/-! ## External collaborators -/

/-- Everything the source uses without defining it. `F` is the `float` carrier and
`M` the state of the pick manager. -/
structure Externals (F M : Type) where
  /-- Conversion `QVariant::toBool` on a payload that is neither invalid nor a bool. -/
  variantToBool : QVariant → Bool
  /-- Conversion `QVariant::toInt` on a payload that is neither invalid nor an int. -/
  variantToInt : QVariant → Int
  /-- Conversion `QVariant::toUInt` on a payload that is neither invalid nor an unsigned int. -/
  variantToUInt : QVariant → Nat
  /-- Conversion `QVariant::toFloat` on a valid payload. -/
  variantToFloat : QVariant → F
  /-- Conversion `QVariant::toString` on a payload that is neither invalid nor a string. -/
  variantToString : QVariant → QString
  /-- Conversion `QVariant::toUuid` on a payload that is neither invalid nor a uuid. -/
  variantToUuid : QVariant → QUuid
  /-- The literal `0.0f`. -/
  zeroF : F
  /-- The literal `1.0f`. -/
  oneF : F
  /-- Unary minus on `float`. -/
  negF : F → F
  /-- Constant `Vectors::ZERO`. -/
  ZERO : Vec3 F
  /-- Constant `Vectors::UP`. -/
  UP : Vec3 F
  /-- Constant `Vectors::FRONT`. -/
  FRONT : Vec3 F
  /-- Helper `vec3FromVariant`. -/
  vec3FromVariant : QVariant → Vec3 F
  /-- Helper `quatFromVariant`. -/
  quatFromVariant : QVariant → Quat F
  /-- Product `glm::quat * glm::vec3` (rotation of a vector). -/
  rotate : Quat F → Vec3 F → Vec3 F
  /-- Constructor `PickFilter(unsigned)` from flag bits. -/
  filterOfUInt : Nat → PickFilter
  /-- The local avatar, `AvatarManager::getMyAvatar()`. -/
  myAvatar : SpatiallyNestable
  /-- Its session id, `getMyAvatar()->getSessionUUID()`. -/
  mySessionUUID : QUuid
  /-- Joint table of the local avatar, `myAvatar->getJointIndex(name)`. -/
  getJointIndex : QString → Int
  /-- Constant `CONTROLLER_LEFTHAND_INDEX`. -/
  CONTROLLER_LEFTHAND_INDEX : Int
  /-- Constant `CONTROLLER_RIGHTHAND_INDEX`. -/
  CONTROLLER_RIGHTHAND_INDEX : Int
  /-- Constant `CAMERA_RELATIVE_CONTROLLER_LEFTHAND_INDEX`. -/
  CAMERA_RELATIVE_CONTROLLER_LEFTHAND_INDEX : Int
  /-- Constant `CAMERA_RELATIVE_CONTROLLER_RIGHTHAND_INDEX`. -/
  CAMERA_RELATIVE_CONTROLLER_RIGHTHAND_INDEX : Int
  /-- Lookup `SpatialParentFinder::find(uuid, success, nullptr)`: the weak pointer
  returned and the `success` flag written. -/
  find : QUuid → WeakPtr × Bool
  /-- Constant `PickManager::INVALID_PICK_ID`. -/
  INVALID_PICK_ID : Nat
  /-- Registration `PickManager::addPick(type, pick)`: the id returned and the
  manager afterwards. -/
  addPick : M → PickType → PickQuery F → Nat × M

/-! ## Qt conversions -/

section Conversions

variable {F M : Type}

/-- Conversion `QVariant::toBool`: false for the invalid variant, the stored value
for a bool. -/
def QVariant.toBool (ext : Externals F M) : QVariant → Bool
  | .invalid => false
  | .bool b => b
  | v => ext.variantToBool v

/-- Conversion `QVariant::toInt`: 0 for the invalid variant, the stored value for an
int. -/
def QVariant.toInt (ext : Externals F M) : QVariant → Int
  | .invalid => 0
  | .int i => i
  | v => ext.variantToInt v

/-- Conversion `QVariant::toUInt`: 0 for the invalid variant, the stored value for
an unsigned int. -/
def QVariant.toUInt (ext : Externals F M) : QVariant → Nat
  | .invalid => 0
  | .uint n => n
  | v => ext.variantToUInt v

/-- Conversion `QVariant::toFloat`: `0.0f` for the invalid variant. -/
def QVariant.toFloat (ext : Externals F M) : QVariant → F
  | .invalid => ext.zeroF
  | v => ext.variantToFloat v

/-- Conversion `QVariant::toString`: the null string for the invalid variant, the
stored value for a string. -/
def QVariant.toString (ext : Externals F M) : QVariant → QString
  | .invalid => QString.null
  | .string s => s
  | v => ext.variantToString v

/-- Conversion `QVariant::toUuid`: the null uuid for the invalid variant, the stored
value for a uuid. -/
def QVariant.toUuid (ext : Externals F M) : QVariant → QUuid
  | .invalid => { val := 0 }
  | .uuid u => u
  | v => ext.variantToUuid v

/-- Unary minus of `glm::vec3`, component by component. -/
def Vec3.neg (ext : Externals F M) (v : Vec3 F) : Vec3 F :=
  { x := ext.negF v.x, y := ext.negF v.y, z := ext.negF v.z }

/-- Value-initialised `glm::vec3()`: all components `0.0f`. -/
def Vec3.zeroInit (ext : Externals F M) : Vec3 F :=
  { x := ext.zeroF, y := ext.zeroF, z := ext.zeroF }

end Conversions

/-! ## The source functions -/

section Source

variable {F M : Type}

/-- Function `PickScriptingInterface::getPickJointState` (lines 358-387). The joint
index is read from the key spelled "parentJointIndes", as in the source. -/
def getPickJointState (ext : Externals F M) (propMap : QVariantMap) : JointState :=
  if (propMap.value "parentID").isValid then
    let parentUuid := (propMap.value "parentID").toUuid ext
    if (propMap.value "parentJointIndex").isValid && parentUuid == ext.mySessionUUID then
      let jointIndex := (propMap.value "parentJointIndes").toInt ext
      if jointIndex == ext.CONTROLLER_LEFTHAND_INDEX
          || jointIndex == ext.CAMERA_RELATIVE_CONTROLLER_LEFTHAND_INDEX then
        JointState.JOINT_STATE_LEFT_HAND
      else if jointIndex == ext.CONTROLLER_RIGHTHAND_INDEX
          || jointIndex == ext.CAMERA_RELATIVE_CONTROLLER_RIGHTHAND_INDEX then
        JointState.JOINT_STATE_RIGHT_HAND
      else
        JointState.JOINT_STATE_NONE
    else
      JointState.JOINT_STATE_NONE
  else if (propMap.value "joint").isValid then
    let joint := (propMap.value "joint").toString ext
    if joint.eqLit "Mouse" then
      JointState.JOINT_STATE_MOUSE
    else if joint.eqLit "_CONTROLLER_LEFTHAND"
        || joint.eqLit "_CAMERA_RELATIVE_CONTROLLER_LEFTHAND" then
      JointState.JOINT_STATE_LEFT_HAND
    else if joint.eqLit "_CONTROLLER_RIGHTHAND"
        || joint.eqLit "_CAMERA_RELATIVE_CONTROLLER_RIGHTHAND" then
      JointState.JOINT_STATE_RIGHT_HAND
    else
      JointState.JOINT_STATE_NONE
  else
    JointState.JOINT_STATE_NONE

/-- The part of `createTransformNode` that looks at the named joint (lines 422-435),
reached when no parent node was returned. -/
def createTransformNode.fromJoint (ext : Externals F M) (propMap : QVariantMap) :
    Option TransformNode :=
  if (propMap.value "joint").isValid then
    let joint := (propMap.value "joint").toString ext
    if joint.eqLit "Mouse" then
      some TransformNode.MouseTransformNode
    else if joint.eqLit "Avatar" then
      some TransformNode.MyAvatarHeadTransformNode
    else if !joint.isNull then
      let myAvatar := ext.myAvatar
      let jointIndex := ext.getJointIndex joint
      some (TransformNode.AvatarTransformNode myAvatar jointIndex)
    else
      none
  else
    none

/-- The part of `createTransformNode` after the spatial lookup did not return
(lines 416-420 and on): a nonzero unsigned value of parentID gives a pick node,
otherwise the named joint decides. -/
def createTransformNode.fromPickID (ext : Externals F M) (propMap : QVariantMap) :
    Option TransformNode :=
  let pickID := (propMap.value "parentID").toUInt ext
  if pickID != 0 then
    some (TransformNode.PickTransformNode pickID)
  else
    createTransformNode.fromJoint ext propMap

/-- Function `PickScriptingInterface::createTransformNode` (lines 389-436); the
null pointer is `none`. -/
def createTransformNode (ext : Externals F M) (propMap : QVariantMap) : Option TransformNode :=
  if (propMap.value "parentID").isValid then
    let parentUuid := (propMap.value "parentID").toUuid ext
    if !parentUuid.isNull then
      let found := ext.find parentUuid
      let nestablePointer : WeakPtr := found.1
      let success := found.2
      let parentJointIndex : Int :=
        if (propMap.value "parentJointIndex").isValid then
          (propMap.value "parentJointIndex").toInt ext
        else 0
      match success, nestablePointer.lock with
      | true, some sharedNestablePointer =>
        let nestableType := sharedNestablePointer.nestableType
        if nestableType == NestableType.Avatar then
          some (TransformNode.AvatarTransformNode sharedNestablePointer parentJointIndex)
        else if nestableType == NestableType.Overlay then
          some (TransformNode.OverlayTransformNode sharedNestablePointer parentJointIndex)
        else if nestableType == NestableType.Entity then
          some (TransformNode.EntityTransformNode sharedNestablePointer parentJointIndex)
        else
          some (TransformNode.NestableTransformNode nestablePointer parentJointIndex)
      | _, _ => createTransformNode.fromPickID ext propMap
    else
      createTransformNode.fromPickID ext propMap
  else
    createTransformNode.fromJoint ext propMap

/-- The block that opens every create operation: `enabled` is false unless the
option is valid. -/
def readEnabled (ext : Externals F M) (propMap : QVariantMap) : Bool :=
  if (propMap.value "enabled").isValid then (propMap.value "enabled").toBool ext else false

/-- The block that opens every create operation: `filter` is `PickFilter()` unless
the option is valid. -/
def readFilter (ext : Externals F M) (propMap : QVariantMap) : PickFilter :=
  if (propMap.value "filter").isValid then
    ext.filterOfUInt ((propMap.value "filter").toUInt ext)
  else PickFilter.default

/-- The block that opens every create operation: `maxDistance` is `0.0f` unless the
option is valid. -/
def readMaxDistance (ext : Externals F M) (propMap : QVariantMap) : F :=
  if (propMap.value "maxDistance").isValid then (propMap.value "maxDistance").toFloat ext
  else ext.zeroF

/-- The ray pick that `createRayPick` constructs and hands to the pick manager
(lines 64-102). -/
def makeRayPick (ext : Externals F M) (propMap : QVariantMap) : RayPick F :=
  let enabled := readEnabled ext propMap
  let filter := readFilter ext propMap
  let maxDistance := readMaxDistance ext propMap
  let position : Vec3 F :=
    if (propMap.value "position").isValid then
      ext.vec3FromVariant (propMap.value "position")
    else if (propMap.value "posOffset").isValid then
      ext.vec3FromVariant (propMap.value "posOffset")
    else ext.ZERO
  let direction : Vec3 F :=
    if (propMap.value "joint").isValid then ext.UP else Vec3.neg ext ext.UP
  let direction : Vec3 F :=
    if (propMap.value "orientation").isValid then
      ext.rotate (ext.quatFromVariant (propMap.value "orientation")) ext.UP
    else if (propMap.value "direction").isValid then
      ext.vec3FromVariant (propMap.value "direction")
    else if (propMap.value "dirOffset").isValid then
      ext.vec3FromVariant (propMap.value "dirOffset")
    else direction
  let rayPick : RayPick F :=
    { toPickQueryBase := PickQueryBase.make filter maxDistance enabled,
      position := position, direction := direction }
  let rayPick := { rayPick with parentTransform := createTransformNode ext propMap }
  { rayPick with jointState := getPickJointState ext propMap }

/-- Function `PickScriptingInterface::createRayPick` (lines 63-105). -/
def createRayPick (ext : Externals F M) (pm : M) (properties : Properties) : Nat × M :=
  let propMap := properties.toMap
  ext.addPick pm PickType.Ray (PickQuery.ray (makeRayPick ext propMap))

/-- The stylus pick that `createStylusPick` constructs (lines 116-141); no parent
transform and no joint state are attached. -/
def makeStylusPick (ext : Externals F M) (propMap : QVariantMap) : StylusPick F :=
  let handVar := propMap.value "hand"
  let side : Side :=
    if handVar.isValid then bilateral.side (handVar.toInt ext) else Side.Invalid
  let enabled := readEnabled ext propMap
  let filter := readFilter ext propMap
  let maxDistance := readMaxDistance ext propMap
  { toPickQueryBase := PickQueryBase.make filter maxDistance enabled, side := side }

/-- Function `PickScriptingInterface::createStylusPick` (lines 115-142). -/
def createStylusPick (ext : Externals F M) (pm : M) (properties : Properties) : Nat × M :=
  let propMap := properties.toMap
  ext.addPick pm PickType.Stylus (PickQuery.stylus (makeStylusPick ext propMap))

/-- The parabola pick that `createParabolaPick` constructs (lines 166-228). -/
def makeParabolaPick (ext : Externals F M) (propMap : QVariantMap) : ParabolaPick F :=
  let enabled := readEnabled ext propMap
  let filter := readFilter ext propMap
  let maxDistance := readMaxDistance ext propMap
  let speed : F :=
    if (propMap.value "speed").isValid then (propMap.value "speed").toFloat ext else ext.oneF
  let accelerationAxis : Vec3 F :=
    if (propMap.value "accelerationAxis").isValid then
      ext.vec3FromVariant (propMap.value "accelerationAxis")
    else Vec3.neg ext ext.UP
  let rotateAccelerationWithAvatar : Bool :=
    if (propMap.value "rotateAccelerationWithAvatar").isValid then
      (propMap.value "rotateAccelerationWithAvatar").toBool ext
    else true
  let rotateAccelerationWithParent : Bool :=
    if (propMap.value "rotateAccelerationWithParent").isValid then
      (propMap.value "rotateAccelerationWithParent").toBool ext
    else false
  let scaleWithParent : Bool :=
    if (propMap.value "scaleWithParent").isValid then
      (propMap.value "scaleWithParent").toBool ext
    else if (propMap.value "scaleWithAvatar").isValid then
      (propMap.value "scaleWithAvatar").toBool ext
    else false
  let position : Vec3 F :=
    if (propMap.value "position").isValid then
      ext.vec3FromVariant (propMap.value "position")
    else if (propMap.value "posOffset").isValid then
      ext.vec3FromVariant (propMap.value "posOffset")
    else Vec3.zeroInit ext
  let direction : Vec3 F :=
    if (propMap.value "orientation").isValid then
      ext.rotate (ext.quatFromVariant (propMap.value "orientation")) ext.UP
    else if (propMap.value "direction").isValid then
      ext.vec3FromVariant (propMap.value "direction")
    else if (propMap.value "dirOffset").isValid then
      ext.vec3FromVariant (propMap.value "dirOffset")
    else Vec3.neg ext ext.FRONT
  let parabolaPick : ParabolaPick F :=
    { toPickQueryBase := PickQueryBase.make filter maxDistance enabled,
      position := position, direction := direction, speed := speed,
      accelerationAxis := accelerationAxis,
      rotateAccelerationWithAvatar := rotateAccelerationWithAvatar,
      rotateAccelerationWithParent := rotateAccelerationWithParent,
      scaleWithParent := scaleWithParent }
  let parabolaPick := { parabolaPick with parentTransform := createTransformNode ext propMap }
  { parabolaPick with jointState := getPickJointState ext propMap }

/-- Function `PickScriptingInterface::createParabolaPick` (lines 165-230). -/
def createParabolaPick (ext : Externals F M) (pm : M) (properties : Properties) : Nat × M :=
  let propMap := properties.toMap
  ext.addPick pm PickType.Parabola (PickQuery.parabola (makeParabolaPick ext propMap))

/-- The collision pick that `createCollisionPick` constructs (lines 261-281). -/
def makeCollisionPick (ext : Externals F M) (propMap : QVariantMap) : CollisionPick F :=
  let enabled := readEnabled ext propMap
  let filter := readFilter ext propMap
  let maxDistance := readMaxDistance ext propMap
  let collisionRegion : CollisionRegion := { source := propMap }
  let collisionPick : CollisionPick F :=
    { toPickQueryBase := PickQueryBase.make filter maxDistance enabled,
      collisionRegion := collisionRegion }
  let collisionPick := { collisionPick with parentTransform := createTransformNode ext propMap }
  { collisionPick with jointState := getPickJointState ext propMap }

/-- Function `PickScriptingInterface::createCollisionPick` (lines 260-284). -/
def createCollisionPick (ext : Externals F M) (pm : M) (properties : Properties) : Nat × M :=
  let propMap := properties.toMap
  ext.addPick pm PickType.Collision (PickQuery.collision (makeCollisionPick ext propMap))

/-- Function `PickScriptingInterface::createPick` (lines 34-47). -/
def createPick (ext : Externals F M) (pm : M) (type : PickType) (properties : Properties) :
    Nat × M :=
  match type with
  | PickType.Ray => createRayPick ext pm properties
  | PickType.Stylus => createStylusPick ext pm properties
  | PickType.Parabola => createParabolaPick ext pm properties
  | PickType.Collision => createCollisionPick ext pm properties
  | _ => (ext.INVALID_PICK_ID, pm)

end Source

/-! ## A concrete world for evaluating the definitions -/

/-- A pick manager state for examples: the picks registered so far, newest first,
and the next id. -/
structure DemoManager where
  picks : List (Nat × PickType × PickQuery Int)
  nextPickID : Nat
  deriving DecidableEq

/-- The local avatar of the example world. -/
def demoAvatar : SpatiallyNestable := { id := { val := 7 }, nestableType := NestableType.Avatar }

/-- An example world: floats are integers, foreign payloads convert to defaults,
the joint table knows "LeftHand" at index 3, the spatial lookup finds the avatar
with id 7, an overlay with id 8, an entity with id 9 and an unnamed category with
id 10, and the controller joint constants are those of AvatarData.h. -/
def demoExt : Externals Int DemoManager :=
  { variantToBool := fun _ => false
    variantToInt := fun _ => 0
    variantToUInt := fun _ => 0
    variantToFloat := fun v => match v with
      | QVariant.int i => i
      | _ => 0
    variantToString := fun _ => QString.null
    variantToUuid := fun _ => { val := 0 }
    zeroF := 0
    oneF := 1
    negF := fun x => -x
    ZERO := { x := 0, y := 0, z := 0 }
    UP := { x := 0, y := 1, z := 0 }
    FRONT := { x := 0, y := 0, z := -1 }
    vec3FromVariant := fun _ => { x := 5, y := 5, z := 5 }
    quatFromVariant := fun _ => { w := 1, x := 0, y := 0, z := 0 }
    rotate := fun _ v => v
    filterOfUInt := fun n => { flags := n }
    myAvatar := demoAvatar
    mySessionUUID := { val := 7 }
    getJointIndex := fun name => if name = QString.str "LeftHand" then 3 else -1
    CONTROLLER_LEFTHAND_INDEX := 65532
    CONTROLLER_RIGHTHAND_INDEX := 65533
    CAMERA_RELATIVE_CONTROLLER_LEFTHAND_INDEX := 65530
    CAMERA_RELATIVE_CONTROLLER_RIGHTHAND_INDEX := 65531
    find := fun u =>
      if u.val = 7 then (some demoAvatar, true)
      else if u.val = 8 then (some { id := u, nestableType := NestableType.Overlay }, true)
      else if u.val = 9 then (some { id := u, nestableType := NestableType.Entity }, true)
      else if u.val = 10 then (some { id := u, nestableType := NestableType.other 3 }, true)
      else (none, false)
    INVALID_PICK_ID := 0
    addPick := fun pm type pick =>
      (pm.nextPickID, { picks := (pm.nextPickID, type, pick) :: pm.picks,
                        nextPickID := pm.nextPickID + 1 }) }

/-- An empty example pick manager whose first id is 1. -/
def demoManager : DemoManager := { picks := [], nextPickID := 1 }

/-! ## Further operations of the front door -/

/-- Removal of a key from a map, `QMap::remove`: every entry for the key is dropped. -/
def QVariantMap.remove (m : QVariantMap) (key : String) : QVariantMap :=
  m.filter (fun entry => entry.1 != key)

/-- What `getPrevPickResult` uses without defining it. `M` is the state of the pick
manager and `R` the pick result class. -/
structure ResultExternals (M R : Type) where
  /-- Read `PickManager::getPrevPickResult(uid)`: the pointer to the last result of
  the pick, null (`none`) when the manager has no result for the id. It is a read of
  the manager (section 4.3: non-blocking, does not trigger evaluation). -/
  managerGetPrevPickResult : M → Nat → Option R
  /-- Method `PickResult::toVariantMap`. -/
  toVariantMap : R → QVariantMap

/-- Function `PickScriptingInterface::getPrevPickResult` (lines 298-305), with the
pick manager it leaves behind. -/
def getPrevPickResult {M R : Type} (rx : ResultExternals M R) (pm : M) (uid : Nat) :
    QVariantMap × M :=
  let result : QVariantMap := []
  let pickResult := rx.managerGetPrevPickResult pm uid
  match pickResult with
  | some r => (rx.toVariantMap r, pm)
  | none => (result, pm)

/-- Function `PickScriptingInterface::setPerFrameTimeBudget` (lines 354-356): the
call is handed to the pick manager unchanged. -/
def setPerFrameTimeBudget {M : Type} (managerSetPerFrameTimeBudget : M → Nat → M) (pm : M)
    (numUsecs : Nat) : M :=
  managerSetPerFrameTimeBudget pm numUsecs

/-- Function `PickScriptingInterface::getPerFrameTimeBudget` (lines 350-352). -/
def getPerFrameTimeBudget {M : Type} (managerGetPerFrameTimeBudget : M → Nat) (pm : M) : Nat :=
  managerGetPerFrameTimeBudget pm

/-! ## The scheduler, from the specification -/

/-- Modelled from the spec: the pick manager (registry and scheduler) is not part of
this file. Sections 3 and 4.3: the live queries keyed by id, each enabled or
disabled; the per-frame budget in microseconds; a rotating cursor over the live
enabled queries that persists across frames. -/
structure Scheduler where
  queries : List (Nat × Bool)
  budget : Nat
  cursor : Nat
  deriving DecidableEq

/-- Modelled from the spec: `PickManager::setPerFrameTimeBudget` is missing; section
4.3 has setBudget store the scheduling parameter for the next evaluation pass. -/
def Scheduler.setPerFrameTimeBudget (s : Scheduler) (numUsecs : Nat) : Scheduler :=
  { s with budget := numUsecs }

/-- Modelled from the spec: `PickManager::getPerFrameTimeBudget` is missing; section
4.3 has getBudget return the stored parameter. -/
def Scheduler.getPerFrameTimeBudget (s : Scheduler) : Nat := s.budget

/-- Modelled from the spec: the live enabled queries (section 3: disabled queries
are skipped entirely during scheduling), in registry order. -/
def Scheduler.enabledIds (s : Scheduler) : List Nat :=
  (s.queries.filter (fun q => q.2)).map (fun q => q.1)

/-- Modelled from the spec: the visiting loop of the per-frame pass, which is
missing. Section 4.3: each query visited adds the measured cost of its evaluation
(`cost`, per query id) to a running total; visiting stops once the running total
would exceed the budget; a budget of 0 means unbounded. The result lists the
queries visited, in order. -/
def Scheduler.visit (cost : Nat → Nat) (budget : Nat) : Nat → List Nat → List Nat
  | _, [] => []
  | total, q :: rest =>
    if budget != 0 && total + cost q > budget then []
    else q :: Scheduler.visit cost budget (total + cost q) rest

/-- Modelled from the spec: one per-frame evaluation pass (`PickManager::update`,
missing). Section 4.3: the live enabled queries are visited in rotation from the
cursor, and the cursor moves to the stop point for the next frame. The result is
the list of queries evaluated in this pass and the scheduler afterwards. -/
def Scheduler.update (cost : Nat → Nat) (s : Scheduler) : List Nat × Scheduler :=
  let order := s.enabledIds.rotate s.cursor
  let visited := Scheduler.visit cost s.budget 0 order
  (visited, { s with cursor := (s.cursor + visited.length) % (max 1 order.length) })

/-- A result cache for examples: the manager state is the list of (id, result)
pairs, a result is its map form. -/
def demoResults : ResultExternals (List (Nat × QVariantMap)) QVariantMap :=
  { managerGetPrevPickResult := fun pm uid => pm.lookup uid
    toVariantMap := fun r => r }

/-- A scheduler for examples: queries 1, 3 and 4 enabled, query 2 disabled, a budget
of 10 microseconds, the cursor at the second enabled query. -/
def demoScheduler : Scheduler :=
  { queries := [(1, true), (2, false), (3, true), (4, true)], budget := 10, cursor := 1 }

/-! ## Conversion of integers to `float` -/

/-- The number of low bits that conversion to `float` drops from a magnitude: 0
below 2^24 (a `float` has a 24-bit significand), one more for each further
doubling. The first argument bounds the number of steps. -/
def float32Shift : Nat → Nat → Nat
  | 0, _ => 0
  | fuel + 1, n => if n < 2 ^ 24 then 0 else 1 + float32Shift fuel (n / 2)

/-- The value of `(float) i` for an integer below the range of `float` (in
particular every 32-bit integer): the magnitude is rounded to 24 significant bits,
to the nearest value and to the even significand on a tie (IEEE 754 single
precision, the default rounding); the result is an integer, given exactly. -/
def float32OfInt (i : Int) : Int :=
  let n := i.natAbs
  let e := float32Shift 128 n
  let q := n / 2 ^ e
  let r := n % 2 ^ e
  let rounded := if 2 * r > 2 ^ e ∨ (2 * r = 2 ^ e ∧ q % 2 = 1) then q + 1 else q
  if i < 0 then -((rounded * 2 ^ e : Nat) : Int) else ((rounded * 2 ^ e : Nat) : Int)

/-- The example world with the float conversion of integer variants made exact:
a float is given by its value (integer-valued floats only), and
`QVariant(int).toFloat()` is `(float) i`. Everything else is as in `demoExt`. -/
def float32Ext : Externals Int DemoManager :=
  { demoExt with
    variantToFloat := fun v => match v with
      | QVariant.int i => float32OfInt i
      | _ => 0 }

/-! ## Theorems -/

section Theorems

variable {F M : Type}

/-- Reading a key from a map with an entry for a different key put in front reads
from the rest of the map. -/
theorem QVariantMap.value_cons_ne (k key : String) (v : QVariant) (m : QVariantMap)
    (h : (key == k) = false) :
    QVariantMap.value ((k, v) :: m) key = QVariantMap.value m key := by
  simp [QVariantMap.value, List.lookup, h]

/-- A variant whose uuid conversion is not null is a valid variant. -/
theorem QVariant.isValid_of_toUuid_not_null (ext : Externals F M) (v : QVariant)
    (h : (v.toUuid ext).isNull = false) : v.isValid = true := by
  cases v with
  | invalid => simp [QVariant.toUuid, QUuid.isNull] at h
  | _ => rfl

/-- The result of createTransformNode when parentID converts to a non-null uuid that
the spatial parent finder resolves to a live object. -/
theorem createTransformNode_of_found (ext : Externals F M) (propMap : QVariantMap)
    (obj : SpatiallyNestable)
    (hUuid : ((propMap.value "parentID").toUuid ext).isNull = false)
    (hFind : ext.find ((propMap.value "parentID").toUuid ext) = (some obj, true)) :
    createTransformNode ext propMap
      = some (match obj.nestableType with
          | NestableType.Avatar =>
            TransformNode.AvatarTransformNode obj
              (if (propMap.value "parentJointIndex").isValid then
                (propMap.value "parentJointIndex").toInt ext else 0)
          | NestableType.Overlay =>
            TransformNode.OverlayTransformNode obj
              (if (propMap.value "parentJointIndex").isValid then
                (propMap.value "parentJointIndex").toInt ext else 0)
          | NestableType.Entity =>
            TransformNode.EntityTransformNode obj
              (if (propMap.value "parentJointIndex").isValid then
                (propMap.value "parentJointIndex").toInt ext else 0)
          | NestableType.other _ =>
            TransformNode.NestableTransformNode (some obj)
              (if (propMap.value "parentJointIndex").isValid then
                (propMap.value "parentJointIndex").toInt ext else 0)) := by
  have hValid := QVariant.isValid_of_toUuid_not_null ext _ hUuid
  simp only [createTransformNode, hValid, hUuid, hFind, WeakPtr.lock]
  cases obj.nestableType <;> simp

/-- C1: createPick returns what createRayPick, createStylusPick, createParabolaPick
or createCollisionPick returns on the same properties for the types Ray, Stylus,
Parabola and Collision, and for every other type value (the count NUM_PICK_TYPES
and any value outside the enumeration) it returns INVALID_PICK_ID and leaves the
pick manager as it was. -/
theorem createPick_dispatch (ext : Externals F M) (pm : M) (properties : Properties) :
    createPick ext pm PickType.Ray properties = createRayPick ext pm properties
    ∧ createPick ext pm PickType.Stylus properties = createStylusPick ext pm properties
    ∧ createPick ext pm PickType.Parabola properties = createParabolaPick ext pm properties
    ∧ createPick ext pm PickType.Collision properties = createCollisionPick ext pm properties
    ∧ createPick ext pm PickType.NUM_PICK_TYPES properties = (ext.INVALID_PICK_ID, pm)
    ∧ ∀ n : Nat, createPick ext pm (PickType.other n) properties = (ext.INVALID_PICK_ID, pm) :=
  ⟨rfl, rfl, rfl, rfl, rfl, fun _ => rfl⟩

/-- C2: for each of the four create operations and every property bag in which
enabled, filter and maxDistance are absent, the query handed to addPick has
enabled = false, filter = PickFilter() (whose flag value is 0), and
maxDistance = 0.0f. -/
theorem create_general_defaults (ext : Externals F M) (pm : M) (properties : Properties)
    (hEnabled : (properties.toMap.value "enabled").isValid = false)
    (hFilter : (properties.toMap.value "filter").isValid = false)
    (hMaxDistance : (properties.toMap.value "maxDistance").isValid = false) :
    createRayPick ext pm properties
        = ext.addPick pm PickType.Ray (PickQuery.ray (makeRayPick ext properties.toMap))
    ∧ createStylusPick ext pm properties
        = ext.addPick pm PickType.Stylus (PickQuery.stylus (makeStylusPick ext properties.toMap))
    ∧ createParabolaPick ext pm properties
        = ext.addPick pm PickType.Parabola (PickQuery.parabola (makeParabolaPick ext properties.toMap))
    ∧ createCollisionPick ext pm properties
        = ext.addPick pm PickType.Collision (PickQuery.collision (makeCollisionPick ext properties.toMap))
    ∧ ((makeRayPick ext properties.toMap).enabled = false
        ∧ (makeRayPick ext properties.toMap).filter = PickFilter.default
        ∧ (makeRayPick ext properties.toMap).maxDistance = ext.zeroF)
    ∧ ((makeStylusPick ext properties.toMap).enabled = false
        ∧ (makeStylusPick ext properties.toMap).filter = PickFilter.default
        ∧ (makeStylusPick ext properties.toMap).maxDistance = ext.zeroF)
    ∧ ((makeParabolaPick ext properties.toMap).enabled = false
        ∧ (makeParabolaPick ext properties.toMap).filter = PickFilter.default
        ∧ (makeParabolaPick ext properties.toMap).maxDistance = ext.zeroF)
    ∧ ((makeCollisionPick ext properties.toMap).enabled = false
        ∧ (makeCollisionPick ext properties.toMap).filter = PickFilter.default
        ∧ (makeCollisionPick ext properties.toMap).maxDistance = ext.zeroF)
    ∧ PickFilter.default.flags = 0 := by
  refine ⟨rfl, rfl, rfl, rfl, ?_, ?_, ?_, ?_, rfl⟩ <;>
    simp [makeRayPick, makeStylusPick, makeParabolaPick, makeCollisionPick,
      PickQueryBase.make, readEnabled, readFilter, readMaxDistance, hEnabled, hFilter,
      hMaxDistance]

/-- Witness for C2 at the empty property bag. -/
theorem create_general_defaults_witness :
    ((Properties.map []).toMap.value "enabled").isValid = false
    ∧ ((Properties.map []).toMap.value "filter").isValid = false
    ∧ ((Properties.map []).toMap.value "maxDistance").isValid = false
    ∧ (
    createRayPick demoExt demoManager (Properties.map [])
        = demoExt.addPick demoManager PickType.Ray (PickQuery.ray (makeRayPick demoExt (Properties.map []).toMap))
    ∧ createStylusPick demoExt demoManager (Properties.map [])
        = demoExt.addPick demoManager PickType.Stylus (PickQuery.stylus (makeStylusPick demoExt (Properties.map []).toMap))
    ∧ createParabolaPick demoExt demoManager (Properties.map [])
        = demoExt.addPick demoManager PickType.Parabola (PickQuery.parabola (makeParabolaPick demoExt (Properties.map []).toMap))
    ∧ createCollisionPick demoExt demoManager (Properties.map [])
        = demoExt.addPick demoManager PickType.Collision (PickQuery.collision (makeCollisionPick demoExt (Properties.map []).toMap))
    ∧ ((makeRayPick demoExt (Properties.map []).toMap).enabled = false
        ∧ (makeRayPick demoExt (Properties.map []).toMap).filter = PickFilter.default
        ∧ (makeRayPick demoExt (Properties.map []).toMap).maxDistance = demoExt.zeroF)
    ∧ ((makeStylusPick demoExt (Properties.map []).toMap).enabled = false
        ∧ (makeStylusPick demoExt (Properties.map []).toMap).filter = PickFilter.default
        ∧ (makeStylusPick demoExt (Properties.map []).toMap).maxDistance = demoExt.zeroF)
    ∧ ((makeParabolaPick demoExt (Properties.map []).toMap).enabled = false
        ∧ (makeParabolaPick demoExt (Properties.map []).toMap).filter = PickFilter.default
        ∧ (makeParabolaPick demoExt (Properties.map []).toMap).maxDistance = demoExt.zeroF)
    ∧ ((makeCollisionPick demoExt (Properties.map []).toMap).enabled = false
        ∧ (makeCollisionPick demoExt (Properties.map []).toMap).filter = PickFilter.default
        ∧ (makeCollisionPick demoExt (Properties.map []).toMap).maxDistance = demoExt.zeroF)
    ∧ PickFilter.default.flags = 0) :=
  ⟨by decide, by decide, by decide,
    create_general_defaults demoExt demoManager (Properties.map [])
      (by decide) (by decide) (by decide)⟩

/-- C3: for every property bag given to createRayPick in which orientation,
direction and dirOffset are all absent, the direction of the ray is Vectors::UP
when the bag has a joint option and -Vectors::UP when it has none. -/
theorem createRayPick_default_direction (ext : Externals F M) (pm : M)
    (properties : Properties)
    (hOrientation : (properties.toMap.value "orientation").isValid = false)
    (hDirection : (properties.toMap.value "direction").isValid = false)
    (hDirOffset : (properties.toMap.value "dirOffset").isValid = false) :
    createRayPick ext pm properties
        = ext.addPick pm PickType.Ray (PickQuery.ray (makeRayPick ext properties.toMap))
    ∧ (makeRayPick ext properties.toMap).direction
        = if (properties.toMap.value "joint").isValid then ext.UP else Vec3.neg ext ext.UP := by
  refine ⟨rfl, ?_⟩
  simp [makeRayPick, hOrientation, hDirection, hDirOffset]

/-- Witness for C3 at the bag whose only option is joint = "Mouse": the direction
is UP. -/
theorem createRayPick_default_direction_witness :
    ((Properties.map [("joint", QVariant.string (QString.str "Mouse"))]).toMap.value
        "orientation").isValid = false
    ∧ (makeRayPick demoExt
        (Properties.map [("joint", QVariant.string (QString.str "Mouse"))]).toMap).direction
        = demoExt.UP :=
  ⟨by decide,
    (createRayPick_default_direction demoExt demoManager
      (Properties.map [("joint", QVariant.string (QString.str "Mouse"))])
      (by decide) (by decide) (by decide)).2⟩

/-- C4, as stated, fails: with parentID naming an entity and joint = "Mouse", the ray
pick built by createRayPick has joint state none, not mouse. -/
theorem createRayPick_mouse_joint_with_parent_counterexample :
    QVariantMap.value
        [("parentID", QVariant.uuid (QUuid.mk 9)), ("joint", QVariant.string (QString.str "Mouse"))]
        "joint" = QVariant.string (QString.str "Mouse")
    ∧ (makeRayPick demoExt
        [("parentID", QVariant.uuid (QUuid.mk 9)),
         ("joint", QVariant.string (QString.str "Mouse"))]).jointState
        = JointState.JOINT_STATE_NONE := by
  decide

/-- C4, amended: for every property bag whose joint option is the string "Mouse" and
which has no parentID option, the ray pick handed to addPick by createRayPick has
joint state JOINT_STATE_MOUSE (hence neither hand state). -/
theorem createRayPick_mouse_joint_state (ext : Externals F M) (pm : M)
    (properties : Properties)
    (hParent : (properties.toMap.value "parentID").isValid = false)
    (hJoint : properties.toMap.value "joint" = QVariant.string (QString.str "Mouse")) :
    createRayPick ext pm properties
        = ext.addPick pm PickType.Ray (PickQuery.ray (makeRayPick ext properties.toMap))
    ∧ (makeRayPick ext properties.toMap).jointState = JointState.JOINT_STATE_MOUSE
    ∧ (makeRayPick ext properties.toMap).jointState ≠ JointState.JOINT_STATE_LEFT_HAND
    ∧ (makeRayPick ext properties.toMap).jointState ≠ JointState.JOINT_STATE_RIGHT_HAND := by
  have h : (makeRayPick ext properties.toMap).jointState = JointState.JOINT_STATE_MOUSE := by
    have hValid : (properties.toMap.value "joint").isValid = true := by rw [hJoint]; rfl
    simp only [makeRayPick, getPickJointState, hParent, hValid]
    simp [hJoint, QVariant.toString, QString.eqLit]
  refine ⟨rfl, h, ?_, ?_⟩ <;> rw [h] <;> decide

/-- Witness for the amended C4 at the bag whose only option is joint = "Mouse". -/
theorem createRayPick_mouse_joint_state_witness :
    ((Properties.map [("joint", QVariant.string (QString.str "Mouse"))]).toMap.value
        "parentID").isValid = false
    ∧ (Properties.map [("joint", QVariant.string (QString.str "Mouse"))]).toMap.value "joint"
        = QVariant.string (QString.str "Mouse")
    ∧ (makeRayPick demoExt
        (Properties.map [("joint", QVariant.string (QString.str "Mouse"))]).toMap).jointState
        = JointState.JOINT_STATE_MOUSE :=
  ⟨by decide, by decide,
    (createRayPick_mouse_joint_state demoExt demoManager
      (Properties.map [("joint", QVariant.string (QString.str "Mouse"))])
      (by decide) (by decide)).2.1⟩

/-- C5, what the code does instead: when parentID is the session id of the local
avatar and parentJointIndex is supplied, the joint index that is compared with the
controller constants is read from the key "parentJointIndes"; with that key absent
the index compared is 0, so with all four constants nonzero the state is none
whatever parentJointIndex is. -/
theorem getPickJointState_self_parent_ignores_index (ext : Externals F M)
    (propMap : QVariantMap)
    (hParent : (propMap.value "parentID").isValid = true)
    (hSelf : (propMap.value "parentID").toUuid ext = ext.mySessionUUID)
    (hIndex : (propMap.value "parentJointIndex").isValid = true)
    (hMisspelled : propMap.value "parentJointIndes" = QVariant.invalid)
    (hLeft : ext.CONTROLLER_LEFTHAND_INDEX ≠ 0)
    (hCameraLeft : ext.CAMERA_RELATIVE_CONTROLLER_LEFTHAND_INDEX ≠ 0)
    (hRight : ext.CONTROLLER_RIGHTHAND_INDEX ≠ 0)
    (hCameraRight : ext.CAMERA_RELATIVE_CONTROLLER_RIGHTHAND_INDEX ≠ 0) :
    getPickJointState ext propMap = JointState.JOINT_STATE_NONE := by
  simp [getPickJointState, hParent, hSelf, hIndex, hMisspelled, QVariant.toInt,
    Ne.symm hLeft, Ne.symm hCameraLeft, Ne.symm hRight, Ne.symm hCameraRight]

/-- Witness for C5 at the failing input: parentID is the local avatar (id 7) and
parentJointIndex is CONTROLLER_LEFTHAND_INDEX (65532), yet the state is none. -/
theorem getPickJointState_self_parent_ignores_index_witness :
    (QVariantMap.value
        [("parentID", QVariant.uuid (QUuid.mk 7)), ("parentJointIndex", QVariant.int 65532)]
        "parentJointIndex") = QVariant.int demoExt.CONTROLLER_LEFTHAND_INDEX
    ∧ (QVariantMap.value
        [("parentID", QVariant.uuid (QUuid.mk 7)), ("parentJointIndex", QVariant.int 65532)]
        "parentID").toUuid demoExt = demoExt.mySessionUUID
    ∧ getPickJointState demoExt
        [("parentID", QVariant.uuid (QUuid.mk 7)), ("parentJointIndex", QVariant.int 65532)]
        = JointState.JOINT_STATE_NONE :=
  ⟨by decide, by decide,
    getPickJointState_self_parent_ignores_index demoExt
      [("parentID", QVariant.uuid (QUuid.mk 7)), ("parentJointIndex", QVariant.int 65532)]
      (by decide) (by decide) (by decide) (by decide) (by decide) (by decide) (by decide)
      (by decide)⟩

/-- C6: for every property bag given to createParabolaPick, the effective
scaleWithParent is the boolean value of scaleWithParent when that option is present
(scaleWithAvatar then plays no part), else the boolean value of scaleWithAvatar when
that is present, else false. -/
theorem createParabolaPick_scaleWithParent (ext : Externals F M) (pm : M)
    (properties : Properties) :
    createParabolaPick ext pm properties
        = ext.addPick pm PickType.Parabola
            (PickQuery.parabola (makeParabolaPick ext properties.toMap))
    ∧ (makeParabolaPick ext properties.toMap).scaleWithParent
        = if (properties.toMap.value "scaleWithParent").isValid then
            (properties.toMap.value "scaleWithParent").toBool ext
          else if (properties.toMap.value "scaleWithAvatar").isValid then
            (properties.toMap.value "scaleWithAvatar").toBool ext
          else false :=
  ⟨rfl, rfl⟩

/-- C7: for every property bag given to createParabolaPick, whatever parent options
it has, each absent option takes its default: direction = -Vectors::FRONT when
orientation, direction and dirOffset are absent, accelerationAxis = -Vectors::UP,
rotateAccelerationWithAvatar = true, rotateAccelerationWithParent = false,
speed = 1.0f, and position = the zero vector when position and posOffset are
absent. -/
theorem createParabolaPick_defaults (ext : Externals F M) (pm : M) (properties : Properties) :
    createParabolaPick ext pm properties
        = ext.addPick pm PickType.Parabola
            (PickQuery.parabola (makeParabolaPick ext properties.toMap))
    ∧ (makeParabolaPick ext properties.toMap).direction
        = (if (properties.toMap.value "orientation").isValid then
            ext.rotate (ext.quatFromVariant (properties.toMap.value "orientation")) ext.UP
          else if (properties.toMap.value "direction").isValid then
            ext.vec3FromVariant (properties.toMap.value "direction")
          else if (properties.toMap.value "dirOffset").isValid then
            ext.vec3FromVariant (properties.toMap.value "dirOffset")
          else Vec3.neg ext ext.FRONT)
    ∧ (makeParabolaPick ext properties.toMap).accelerationAxis
        = (if (properties.toMap.value "accelerationAxis").isValid then
            ext.vec3FromVariant (properties.toMap.value "accelerationAxis")
          else Vec3.neg ext ext.UP)
    ∧ (makeParabolaPick ext properties.toMap).rotateAccelerationWithAvatar
        = (if (properties.toMap.value "rotateAccelerationWithAvatar").isValid then
            (properties.toMap.value "rotateAccelerationWithAvatar").toBool ext
          else true)
    ∧ (makeParabolaPick ext properties.toMap).rotateAccelerationWithParent
        = (if (properties.toMap.value "rotateAccelerationWithParent").isValid then
            (properties.toMap.value "rotateAccelerationWithParent").toBool ext
          else false)
    ∧ (makeParabolaPick ext properties.toMap).speed
        = (if (properties.toMap.value "speed").isValid then
            (properties.toMap.value "speed").toFloat ext
          else ext.oneF)
    ∧ (makeParabolaPick ext properties.toMap).position
        = (if (properties.toMap.value "position").isValid then
            ext.vec3FromVariant (properties.toMap.value "position")
          else if (properties.toMap.value "posOffset").isValid then
            ext.vec3FromVariant (properties.toMap.value "posOffset")
          else Vec3.mk ext.zeroF ext.zeroF ext.zeroF) :=
  ⟨rfl, rfl, rfl, rfl, rfl, rfl, rfl⟩

/-- C8: for every property bag given to createStylusPick, the side of the stylus
pick is Invalid when hand is absent, and when hand is an integer it is Left for 0,
Right for 1 and Invalid for any other integer (for a hand value of another stored
type, the side of its integer conversion). -/
theorem createStylusPick_side (ext : Externals F M) (pm : M) (properties : Properties) :
    createStylusPick ext pm properties
        = ext.addPick pm PickType.Stylus (PickQuery.stylus (makeStylusPick ext properties.toMap))
    ∧ (makeStylusPick ext properties.toMap).side
        = match properties.toMap.value "hand" with
          | QVariant.invalid => Side.Invalid
          | QVariant.int i => if i = 0 then Side.Left else if i = 1 then Side.Right else Side.Invalid
          | v => bilateral.side (ext.variantToInt v) := by
  refine ⟨rfl, ?_⟩
  cases h : properties.toMap.value "hand" <;>
    simp [makeStylusPick, h, QVariant.isValid, QVariant.toInt, bilateral.side]

/-- C9: for every property bag without a parentID option whose joint option is a
string, createTransformNode returns a mouse node for "Mouse", an avatar head node
for "Avatar", and for any other name (in particular any other non-empty name) an
avatar joint node bound to the local avatar and to the index that the joint table of
the avatar gives for the name at that moment; the node stores the index. -/
theorem createTransformNode_named_joint (ext : Externals F M) (propMap : QVariantMap)
    (name : String)
    (hParent : (propMap.value "parentID").isValid = false)
    (hJoint : propMap.value "joint" = QVariant.string (QString.str name)) :
    createTransformNode ext propMap
      = some (if name = "Mouse" then TransformNode.MouseTransformNode
          else if name = "Avatar" then TransformNode.MyAvatarHeadTransformNode
          else TransformNode.AvatarTransformNode ext.myAvatar
            (ext.getJointIndex (QString.str name))) := by
  have hValid : (propMap.value "joint").isValid = true := by rw [hJoint]; rfl
  simp only [createTransformNode, createTransformNode.fromJoint, hParent, hValid]
  simp only [hJoint, QVariant.toString, QString.eqLit, QString.isNull]
  by_cases h1 : name = "Mouse"
  · simp [h1]
  · by_cases h2 : name = "Avatar"
    · simp [h2]
    · simp [h1, h2]

/-- Witness for C9 at the bag whose only option is joint = "LeftHand": an avatar
joint node on the local avatar with the index 3 of the joint table. -/
theorem createTransformNode_named_joint_witness :
    (QVariantMap.value [("joint", QVariant.string (QString.str "LeftHand"))]
        "parentID").isValid = false
    ∧ QVariantMap.value [("joint", QVariant.string (QString.str "LeftHand"))] "joint"
        = QVariant.string (QString.str "LeftHand")
    ∧ createTransformNode demoExt [("joint", QVariant.string (QString.str "LeftHand"))]
        = some (TransformNode.AvatarTransformNode demoAvatar 3) :=
  ⟨by decide, by decide,
    createTransformNode_named_joint demoExt
      [("joint", QVariant.string (QString.str "LeftHand"))] "LeftHand" (by decide) (by decide)⟩

/-- C10: for every property bag whose parentID converts to a non-null uuid that the
spatial parent lookup resolves (success, live pointer) to an object,
createTransformNode returns the node class of the category of that object (Avatar,
Overlay, Entity, otherwise the generic nestable node), bound to that object and to
the joint index parentJointIndex, which is 0 when that option is absent; replacing
the joint option by any value does not change the result. -/
theorem createTransformNode_spatial_parent (ext : Externals F M) (propMap : QVariantMap)
    (obj : SpatiallyNestable)
    (hUuid : ((propMap.value "parentID").toUuid ext).isNull = false)
    (hFind : ext.find ((propMap.value "parentID").toUuid ext) = (some obj, true)) :
    createTransformNode ext propMap
      = some (match obj.nestableType with
          | NestableType.Avatar =>
            TransformNode.AvatarTransformNode obj
              (if (propMap.value "parentJointIndex").isValid then
                (propMap.value "parentJointIndex").toInt ext else 0)
          | NestableType.Overlay =>
            TransformNode.OverlayTransformNode obj
              (if (propMap.value "parentJointIndex").isValid then
                (propMap.value "parentJointIndex").toInt ext else 0)
          | NestableType.Entity =>
            TransformNode.EntityTransformNode obj
              (if (propMap.value "parentJointIndex").isValid then
                (propMap.value "parentJointIndex").toInt ext else 0)
          | NestableType.other _ =>
            TransformNode.NestableTransformNode (some obj)
              (if (propMap.value "parentJointIndex").isValid then
                (propMap.value "parentJointIndex").toInt ext else 0))
    ∧ ∀ j : QVariant,
        createTransformNode ext (("joint", j) :: propMap) = createTransformNode ext propMap := by
  refine ⟨createTransformNode_of_found ext propMap obj hUuid hFind, ?_⟩
  intro j
  have hP : QVariantMap.value (("joint", j) :: propMap) "parentID"
      = QVariantMap.value propMap "parentID" :=
    QVariantMap.value_cons_ne "joint" "parentID" j propMap (by decide)
  have hI : QVariantMap.value (("joint", j) :: propMap) "parentJointIndex"
      = QVariantMap.value propMap "parentJointIndex" :=
    QVariantMap.value_cons_ne "joint" "parentJointIndex" j propMap (by decide)
  rw [createTransformNode_of_found ext propMap obj hUuid hFind,
    createTransformNode_of_found ext (("joint", j) :: propMap) obj (by rw [hP]; exact hUuid)
      (by rw [hP]; exact hFind), hI]

/-- Witness for C10 at the bag with parentID = the overlay with id 8, no
parentJointIndex and joint = "Mouse": an overlay node with joint index 0. -/
theorem createTransformNode_spatial_parent_witness :
    ((QVariantMap.value
        [("parentID", QVariant.uuid (QUuid.mk 8)), ("joint", QVariant.string (QString.str "Mouse"))]
        "parentID").toUuid demoExt).isNull = false
    ∧ demoExt.find ((QVariantMap.value
        [("parentID", QVariant.uuid (QUuid.mk 8)), ("joint", QVariant.string (QString.str "Mouse"))]
        "parentID").toUuid demoExt)
        = (some (SpatiallyNestable.mk (QUuid.mk 8) NestableType.Overlay), true)
    ∧ createTransformNode demoExt
        [("parentID", QVariant.uuid (QUuid.mk 8)), ("joint", QVariant.string (QString.str "Mouse"))]
        = some (TransformNode.OverlayTransformNode
            (SpatiallyNestable.mk (QUuid.mk 8) NestableType.Overlay) 0) :=
  ⟨by decide, by decide,
    (createTransformNode_spatial_parent demoExt
      [("parentID", QVariant.uuid (QUuid.mk 8)), ("joint", QVariant.string (QString.str "Mouse"))]
      (SpatiallyNestable.mk (QUuid.mk 8) NestableType.Overlay) (by decide) (by decide)).1⟩

/-- A variant whose unsigned conversion is not 0 is a valid variant. -/
theorem QVariant.isValid_of_toUInt_ne_zero (ext : Externals F M) (v : QVariant)
    (h : v.toUInt ext ≠ 0) : v.isValid = true := by
  cases v with
  | invalid => simp [QVariant.toUInt] at h
  | _ => rfl

/-- The result of createTransformNode when parentID is present but the spatial
lookup gives no live object (null uuid, lookup without success, or expired
pointer): the pick id branch decides. -/
theorem createTransformNode_of_unresolved (ext : Externals F M) (propMap : QVariantMap)
    (hValid : (propMap.value "parentID").isValid = true)
    (hUnresolved : ((propMap.value "parentID").toUuid ext).isNull = true
      ∨ (ext.find ((propMap.value "parentID").toUuid ext)).2 = false
      ∨ (ext.find ((propMap.value "parentID").toUuid ext)).1 = none) :
    createTransformNode ext propMap = createTransformNode.fromPickID ext propMap := by
  simp only [createTransformNode, hValid, if_true]
  rcases hUnresolved with h | h | h
  · simp [h]
  · cases hn : ((propMap.value "parentID").toUuid ext).isNull
    · simp only [Bool.not_false, if_true, h]
    · simp
  · cases hn : ((propMap.value "parentID").toUuid ext).isNull
    · simp only [Bool.not_false, if_true, WeakPtr.lock, h]
      cases (ext.find ((propMap.value "parentID").toUuid ext)).2 <;> rfl
    · simp

/-- Reading a key other than the removed one from a map with a key removed reads
from the map itself. -/
theorem QVariantMap.value_remove_ne (m : QVariantMap) (k key : String) (h : key ≠ k) :
    QVariantMap.value (QVariantMap.remove m k) key = QVariantMap.value m key := by
  induction m with
  | nil => rfl
  | cons e m ih =>
    obtain ⟨a, v⟩ := e
    by_cases hak : a = k
    · subst hak
      have hne : (key == a) = false := by simpa using h
      have h1 : QVariantMap.remove ((a, v) :: m) a = QVariantMap.remove m a := by
        simp [QVariantMap.remove]
      rw [h1, ih, QVariantMap.value_cons_ne a key v m hne]
    · have h1 : QVariantMap.remove ((a, v) :: m) k = (a, v) :: QVariantMap.remove m k := by
        simp [QVariantMap.remove, hak]
      rw [h1]
      by_cases hka : key = a
      · subst hka
        simp [QVariantMap.value, List.lookup]
      · have hne : (key == a) = false := by simpa using hka
        rw [QVariantMap.value_cons_ne a key v _ hne, QVariantMap.value_cons_ne a key v _ hne, ih]

/-- Reading the removed key from a map with that key removed gives the invalid
variant. -/
theorem QVariantMap.value_remove_self (m : QVariantMap) (k : String) :
    QVariantMap.value (QVariantMap.remove m k) k = QVariant.invalid := by
  induction m with
  | nil => rfl
  | cons e m ih =>
    obtain ⟨a, v⟩ := e
    by_cases hak : a = k
    · subst hak
      have h1 : QVariantMap.remove ((a, v) :: m) a = QVariantMap.remove m a := by
        simp [QVariantMap.remove]
      rw [h1, ih]
    · have h1 : QVariantMap.remove ((a, v) :: m) k = (a, v) :: QVariantMap.remove m k := by
        simp [QVariantMap.remove, hak]
      have hne : (k == a) = false := by simpa using (Ne.symm hak)
      rw [h1, QVariantMap.value_cons_ne a k v _ hne, ih]

/-- C11: for every property bag whose parentID does not resolve to a live spatial
object (null uuid, lookup without success, or expired pointer) while its unsigned
value is the id of a live query, createTransformNode returns a PickTransformNode
holding exactly that id, whatever the joint option is. Live query ids are never 0,
the value that line 417 treats as no pick id. -/
theorem createTransformNode_pick_parent (ext : Externals F M) (propMap : QVariantMap)
    (liveIds : List Nat)
    (hSentinel : 0 ∉ liveIds)
    (hUnresolved : ((propMap.value "parentID").toUuid ext).isNull = true
      ∨ (ext.find ((propMap.value "parentID").toUuid ext)).2 = false
      ∨ (ext.find ((propMap.value "parentID").toUuid ext)).1 = none)
    (hLive : (propMap.value "parentID").toUInt ext ∈ liveIds) :
    createTransformNode ext propMap
      = some (TransformNode.PickTransformNode ((propMap.value "parentID").toUInt ext))
    ∧ ∀ j : QVariant, createTransformNode ext (("joint", j) :: propMap)
      = some (TransformNode.PickTransformNode ((propMap.value "parentID").toUInt ext)) := by
  have hne : (propMap.value "parentID").toUInt ext ≠ 0 := by
    intro h0
    exact hSentinel (h0 ▸ hLive)
  have hValid := QVariant.isValid_of_toUInt_ne_zero ext _ hne
  refine ⟨?_, ?_⟩
  · rw [createTransformNode_of_unresolved ext propMap hValid hUnresolved]
    simp [createTransformNode.fromPickID, hne]
  · intro j
    have hP : QVariantMap.value (("joint", j) :: propMap) "parentID"
        = QVariantMap.value propMap "parentID" :=
      QVariantMap.value_cons_ne "joint" "parentID" j propMap (by decide)
    rw [createTransformNode_of_unresolved ext (("joint", j) :: propMap)
      (by rw [hP]; exact hValid) (by rw [hP]; exact hUnresolved)]
    simp [createTransformNode.fromPickID, hP, hne]

/-- Witness for C11 at the bag with parentID = the unsigned number 12 (no uuid, so
no spatial object) and joint = "Mouse", with live queries 3 and 12: a pick node
holding 12. -/
theorem createTransformNode_pick_parent_witness :
    (0 : Nat) ∉ [3, 12]
    ∧ (QVariantMap.value
        [("parentID", QVariant.uint 12), ("joint", QVariant.string (QString.str "Mouse"))]
        "parentID").toUInt demoExt ∈ [3, 12]
    ∧ createTransformNode demoExt
        [("parentID", QVariant.uint 12), ("joint", QVariant.string (QString.str "Mouse"))]
        = some (TransformNode.PickTransformNode 12) :=
  ⟨by decide, by decide,
    (createTransformNode_pick_parent demoExt
      [("parentID", QVariant.uint 12), ("joint", QVariant.string (QString.str "Mouse"))]
      [3, 12] (by decide) (Or.inl (by decide)) (by decide)).1⟩

/-- C20: for every property bag whose parentID is present but does not resolve to a
live spatial object (null uuid, lookup without success, or expired pointer): when
the unsigned value of parentID is nonzero, createTransformNode returns a
PickTransformNode holding that value (no pick manager is consulted); when it is
zero, the result is that of createTransformNode on the bag with parentID removed. -/
theorem createTransformNode_unresolved_parent (ext : Externals F M) (propMap : QVariantMap)
    (hValid : (propMap.value "parentID").isValid = true)
    (hUnresolved : ((propMap.value "parentID").toUuid ext).isNull = true
      ∨ (ext.find ((propMap.value "parentID").toUuid ext)).2 = false
      ∨ (ext.find ((propMap.value "parentID").toUuid ext)).1 = none) :
    createTransformNode ext propMap
      = if (propMap.value "parentID").toUInt ext ≠ 0 then
          some (TransformNode.PickTransformNode ((propMap.value "parentID").toUInt ext))
        else createTransformNode ext (QVariantMap.remove propMap "parentID") := by
  rw [createTransformNode_of_unresolved ext propMap hValid hUnresolved]
  by_cases h0 : (propMap.value "parentID").toUInt ext = 0
  · have hR : (QVariantMap.value (QVariantMap.remove propMap "parentID") "parentID").isValid
        = false := by
      rw [QVariantMap.value_remove_self]; rfl
    have hJ : QVariantMap.value (QVariantMap.remove propMap "parentID") "joint"
        = QVariantMap.value propMap "joint" :=
      QVariantMap.value_remove_ne propMap "parentID" "joint" (by decide)
    simp [createTransformNode.fromPickID, h0, createTransformNode, hR,
      createTransformNode.fromJoint, hJ]
  · simp [createTransformNode.fromPickID, h0]

/-- Witness for C20 at the bag with parentID = the uuid 99, which the spatial lookup
does not find and whose unsigned value is 0, and joint = "Avatar": the avatar head
node that the bag without parentID gets. -/
theorem createTransformNode_unresolved_parent_witness :
    (QVariantMap.value
        [("parentID", QVariant.uuid (QUuid.mk 99)),
         ("joint", QVariant.string (QString.str "Avatar"))] "parentID").isValid = true
    ∧ (demoExt.find ((QVariantMap.value
        [("parentID", QVariant.uuid (QUuid.mk 99)),
         ("joint", QVariant.string (QString.str "Avatar"))] "parentID").toUuid demoExt)).2
        = false
    ∧ createTransformNode demoExt
        [("parentID", QVariant.uuid (QUuid.mk 99)),
         ("joint", QVariant.string (QString.str "Avatar"))]
        = some TransformNode.MyAvatarHeadTransformNode
    ∧ createTransformNode demoExt (QVariantMap.remove
        [("parentID", QVariant.uuid (QUuid.mk 99)),
         ("joint", QVariant.string (QString.str "Avatar"))] "parentID")
        = some TransformNode.MyAvatarHeadTransformNode :=
  ⟨by decide, by decide,
    createTransformNode_unresolved_parent demoExt
      [("parentID", QVariant.uuid (QUuid.mk 99)),
       ("joint", QVariant.string (QString.str "Avatar"))]
      (by decide) (Or.inr (Or.inl (by decide))),
    by decide⟩

/-- C12, as stated, fails for the stylus: with joint = "Mouse" the stylus pick handed
to addPick has no parent transform and joint state none, while createTransformNode
gives a mouse node and getPickJointState gives mouse on the same bag. -/
theorem createStylusPick_attaches_nothing_counterexample :
    createStylusPick demoExt demoManager
        (Properties.map [("joint", QVariant.string (QString.str "Mouse"))])
      = demoExt.addPick demoManager PickType.Stylus
          (PickQuery.stylus
            (makeStylusPick demoExt [("joint", QVariant.string (QString.str "Mouse"))]))
    ∧ (makeStylusPick demoExt
        [("joint", QVariant.string (QString.str "Mouse"))]).parentTransform = none
    ∧ createTransformNode demoExt [("joint", QVariant.string (QString.str "Mouse"))]
        = some TransformNode.MouseTransformNode
    ∧ (makeStylusPick demoExt
        [("joint", QVariant.string (QString.str "Mouse"))]).jointState
        = JointState.JOINT_STATE_NONE
    ∧ getPickJointState demoExt [("joint", QVariant.string (QString.str "Mouse"))]
        = JointState.JOINT_STATE_MOUSE :=
  ⟨rfl, by decide, by decide, by decide, by decide⟩

/-- C12, amended: for each of the create operations Ray, Parabola and Collision and
every property bag, the query handed to addPick has parentTransform equal to
createTransformNode of the bag and joint state equal to getPickJointState of the
bag. -/
theorem create_attaches_parent_and_joint_state (ext : Externals F M) (pm : M)
    (properties : Properties) :
    createRayPick ext pm properties
        = ext.addPick pm PickType.Ray (PickQuery.ray (makeRayPick ext properties.toMap))
    ∧ (makeRayPick ext properties.toMap).parentTransform
        = createTransformNode ext properties.toMap
    ∧ (makeRayPick ext properties.toMap).jointState = getPickJointState ext properties.toMap
    ∧ createParabolaPick ext pm properties
        = ext.addPick pm PickType.Parabola
            (PickQuery.parabola (makeParabolaPick ext properties.toMap))
    ∧ (makeParabolaPick ext properties.toMap).parentTransform
        = createTransformNode ext properties.toMap
    ∧ (makeParabolaPick ext properties.toMap).jointState
        = getPickJointState ext properties.toMap
    ∧ createCollisionPick ext pm properties
        = ext.addPick pm PickType.Collision
            (PickQuery.collision (makeCollisionPick ext properties.toMap))
    ∧ (makeCollisionPick ext properties.toMap).parentTransform
        = createTransformNode ext properties.toMap
    ∧ (makeCollisionPick ext properties.toMap).jointState
        = getPickJointState ext properties.toMap :=
  ⟨rfl, rfl, rfl, rfl, rfl, rfl, rfl, rfl, rfl⟩

/-- C13, as stated, fails where the float conversion is not exact: with
maxDistance = the integer 16777217 (2^24 + 1) the ray pick handed to addPick has
maxDistance 16777216, the nearest `float`, not the supplied value. -/
theorem create_maxDistance_rounded_counterexample :
    QVariantMap.value [("maxDistance", QVariant.int 16777217)] "maxDistance"
        = QVariant.int 16777217
    ∧ createRayPick float32Ext demoManager
        (Properties.map [("maxDistance", QVariant.int 16777217)])
      = float32Ext.addPick demoManager PickType.Ray
          (PickQuery.ray (makeRayPick float32Ext [("maxDistance", QVariant.int 16777217)]))
    ∧ (makeRayPick float32Ext [("maxDistance", QVariant.int 16777217)]).maxDistance
        = (16777216 : Int)
    ∧ (makeRayPick float32Ext [("maxDistance", QVariant.int 16777217)]).maxDistance
        ≠ (16777217 : Int) :=
  ⟨by decide, rfl, by decide, by decide⟩

/-- C13, amended: every create operation, on every property bag, returns exactly
what addPick returns for the one query it constructs (no bag is rejected); and the
maxDistance of that query is the float conversion of the supplied value when
maxDistance is supplied, with no check or clamp, whatever its sign, and 0.0f when it
is not supplied. -/
theorem create_accepts_maxDistance (ext : Externals F M) (pm : M) (properties : Properties) :
    createRayPick ext pm properties
        = ext.addPick pm PickType.Ray (PickQuery.ray (makeRayPick ext properties.toMap))
    ∧ createStylusPick ext pm properties
        = ext.addPick pm PickType.Stylus (PickQuery.stylus (makeStylusPick ext properties.toMap))
    ∧ createParabolaPick ext pm properties
        = ext.addPick pm PickType.Parabola
            (PickQuery.parabola (makeParabolaPick ext properties.toMap))
    ∧ createCollisionPick ext pm properties
        = ext.addPick pm PickType.Collision
            (PickQuery.collision (makeCollisionPick ext properties.toMap))
    ∧ (makeRayPick ext properties.toMap).maxDistance
        = (if (properties.toMap.value "maxDistance").isValid then
            (properties.toMap.value "maxDistance").toFloat ext else ext.zeroF)
    ∧ (makeStylusPick ext properties.toMap).maxDistance
        = (if (properties.toMap.value "maxDistance").isValid then
            (properties.toMap.value "maxDistance").toFloat ext else ext.zeroF)
    ∧ (makeParabolaPick ext properties.toMap).maxDistance
        = (if (properties.toMap.value "maxDistance").isValid then
            (properties.toMap.value "maxDistance").toFloat ext else ext.zeroF)
    ∧ (makeCollisionPick ext properties.toMap).maxDistance
        = (if (properties.toMap.value "maxDistance").isValid then
            (properties.toMap.value "maxDistance").toFloat ext else ext.zeroF) :=
  ⟨rfl, rfl, rfl, rfl, rfl, rfl, rfl, rfl⟩

/-- Witness for the amended C13 at the bag with maxDistance = the integer -5, whose
float conversion is exact: createRayPick returns the id 1 that addPick gives, and
the four queries are built with maxDistance -5. -/
theorem create_accepts_maxDistance_witness :
    (Properties.map [("maxDistance", QVariant.int (-5))]).toMap.value "maxDistance"
        = QVariant.int (-5)
    ∧ (QVariant.int (-5)).toFloat float32Ext = (-5 : Int)
    ∧ createRayPick float32Ext demoManager
        (Properties.map [("maxDistance", QVariant.int (-5))])
      = float32Ext.addPick demoManager PickType.Ray
          (PickQuery.ray (makeRayPick float32Ext
            (Properties.map [("maxDistance", QVariant.int (-5))]).toMap))
    ∧ (createRayPick float32Ext demoManager
        (Properties.map [("maxDistance", QVariant.int (-5))])).1 = 1
    ∧ (makeRayPick float32Ext
        (Properties.map [("maxDistance", QVariant.int (-5))]).toMap).maxDistance = (-5 : Int)
    ∧ (makeStylusPick float32Ext
        (Properties.map [("maxDistance", QVariant.int (-5))]).toMap).maxDistance = (-5 : Int)
    ∧ (makeParabolaPick float32Ext
        (Properties.map [("maxDistance", QVariant.int (-5))]).toMap).maxDistance = (-5 : Int)
    ∧ (makeCollisionPick float32Ext
        (Properties.map [("maxDistance", QVariant.int (-5))]).toMap).maxDistance = (-5 : Int) :=
  ⟨by decide, by decide,
    (create_accepts_maxDistance float32Ext demoManager
      (Properties.map [("maxDistance", QVariant.int (-5))])).1,
    by decide,
    (create_accepts_maxDistance float32Ext demoManager
      (Properties.map [("maxDistance", QVariant.int (-5))])).2.2.2.2⟩

/-- C14: getPrevPickResult returns the empty map when the pick manager has no result
for the id, and otherwise exactly the map form of the last result the manager holds
for it; it is total and leaves the pick manager as it was. -/
theorem getPrevPickResult_spec {R : Type} (rx : ResultExternals M R) (pm : M) (uid : Nat) :
    getPrevPickResult rx pm uid
      = (match rx.managerGetPrevPickResult pm uid with
          | none => ([] : QVariantMap)
          | some r => rx.toVariantMap r,
         pm) := by
  unfold getPrevPickResult
  cases rx.managerGetPrevPickResult pm uid <;> rfl

/-- With a budget of 0 the visiting loop never stops early: it visits the whole
list, from any running total. -/
theorem Scheduler.visit_zero_budget (cost : Nat → Nat) (order : List Nat) (total : Nat) :
    Scheduler.visit cost 0 total order = order := by
  induction order generalizing total with
  | nil => rfl
  | cons q rest ih => simp [Scheduler.visit, ih]

/-- C15: after setPerFrameTimeBudget(0), one evaluation pass of the scheduler
evaluates every live enabled query, however many queries there are and whatever
their costs: the queries evaluated are the live enabled ones in rotation from the
cursor, so each live enabled query is evaluated and nothing else is. -/
theorem setPerFrameTimeBudget_zero_evaluates_all (cost : Nat → Nat) (s : Scheduler) :
    (Scheduler.update cost
        (setPerFrameTimeBudget Scheduler.setPerFrameTimeBudget s 0)).1
      = s.enabledIds.rotate s.cursor
    ∧ List.Perm
        (Scheduler.update cost
          (setPerFrameTimeBudget Scheduler.setPerFrameTimeBudget s 0)).1
        s.enabledIds
    ∧ ∀ id : Nat,
        id ∈ (Scheduler.update cost
          (setPerFrameTimeBudget Scheduler.setPerFrameTimeBudget s 0)).1
        ↔ (id, true) ∈ s.queries := by
  have h : (Scheduler.update cost
      (setPerFrameTimeBudget Scheduler.setPerFrameTimeBudget s 0)).1
      = s.enabledIds.rotate s.cursor := by
    simp [Scheduler.update, setPerFrameTimeBudget, Scheduler.setPerFrameTimeBudget,
      Scheduler.visit_zero_budget, Scheduler.enabledIds]
  refine ⟨h, ?_, ?_⟩
  · rw [h]
    exact List.rotate_perm _ _
  · intro id
    rw [h, List.mem_rotate]
    simp [Scheduler.enabledIds]

/-- C16: for every property bag given to createRayPick or createParabolaPick, the
position of the query is the value of position when present, otherwise the value of
posOffset when present, otherwise the zero vector (Vectors::ZERO for the ray,
glm::vec3() for the parabola); posOffset is not read when position is present. -/
theorem create_position_precedence (ext : Externals F M) (pm : M) (properties : Properties) :
    createRayPick ext pm properties
        = ext.addPick pm PickType.Ray (PickQuery.ray (makeRayPick ext properties.toMap))
    ∧ (makeRayPick ext properties.toMap).position
        = (if (properties.toMap.value "position").isValid then
            ext.vec3FromVariant (properties.toMap.value "position")
          else if (properties.toMap.value "posOffset").isValid then
            ext.vec3FromVariant (properties.toMap.value "posOffset")
          else ext.ZERO)
    ∧ createParabolaPick ext pm properties
        = ext.addPick pm PickType.Parabola
            (PickQuery.parabola (makeParabolaPick ext properties.toMap))
    ∧ (makeParabolaPick ext properties.toMap).position
        = (if (properties.toMap.value "position").isValid then
            ext.vec3FromVariant (properties.toMap.value "position")
          else if (properties.toMap.value "posOffset").isValid then
            ext.vec3FromVariant (properties.toMap.value "posOffset")
          else Vec3.mk ext.zeroF ext.zeroF ext.zeroF) :=
  ⟨rfl, rfl, rfl, rfl⟩

/-- C17: for every property bag given to createRayPick or createParabolaPick, the
direction follows the precedence orientation, direction, dirOffset, default: with
orientation present it is that quaternion applied to Vectors::UP (direction and
dirOffset are not read), otherwise the direction option when present, otherwise the
dirOffset option when present, otherwise the default of the pick kind. -/
theorem create_direction_precedence (ext : Externals F M) (pm : M) (properties : Properties) :
    createRayPick ext pm properties
        = ext.addPick pm PickType.Ray (PickQuery.ray (makeRayPick ext properties.toMap))
    ∧ (makeRayPick ext properties.toMap).direction
        = (if (properties.toMap.value "orientation").isValid then
            ext.rotate (ext.quatFromVariant (properties.toMap.value "orientation")) ext.UP
          else if (properties.toMap.value "direction").isValid then
            ext.vec3FromVariant (properties.toMap.value "direction")
          else if (properties.toMap.value "dirOffset").isValid then
            ext.vec3FromVariant (properties.toMap.value "dirOffset")
          else if (properties.toMap.value "joint").isValid then ext.UP
          else Vec3.neg ext ext.UP)
    ∧ createParabolaPick ext pm properties
        = ext.addPick pm PickType.Parabola
            (PickQuery.parabola (makeParabolaPick ext properties.toMap))
    ∧ (makeParabolaPick ext properties.toMap).direction
        = (if (properties.toMap.value "orientation").isValid then
            ext.rotate (ext.quatFromVariant (properties.toMap.value "orientation")) ext.UP
          else if (properties.toMap.value "direction").isValid then
            ext.vec3FromVariant (properties.toMap.value "direction")
          else if (properties.toMap.value "dirOffset").isValid then
            ext.vec3FromVariant (properties.toMap.value "dirOffset")
          else Vec3.neg ext ext.FRONT) :=
  ⟨rfl, rfl, rfl, rfl⟩

/-- C18, as stated, fails for the empty string: with no parentID and joint = the
empty (non-null) string, createTransformNode returns an avatar joint node on the
local avatar, with the index the joint table gives for the empty name. -/
theorem createTransformNode_empty_joint_counterexample :
    (QVariantMap.value [("joint", QVariant.string (QString.str ""))] "parentID").isValid = false
    ∧ QVariantMap.value [("joint", QVariant.string (QString.str ""))] "joint"
        = QVariant.string (QString.str "")
    ∧ createTransformNode demoExt [("joint", QVariant.string (QString.str ""))]
        = some (TransformNode.AvatarTransformNode demoAvatar (-1)) := by
  decide

/-- C18, amended: for every property bag without a parentID option,
createTransformNode returns no node exactly when the joint option is absent or its
string value is the null string; the empty non-null string is a name like any
other. -/
theorem createTransformNode_no_node_iff (ext : Externals F M) (propMap : QVariantMap)
    (hParent : (propMap.value "parentID").isValid = false) :
    createTransformNode ext propMap = none
      ↔ ((propMap.value "joint").isValid = false
          ∨ (propMap.value "joint").toString ext = QString.null) := by
  simp only [createTransformNode, createTransformNode.fromJoint, hParent]
  cases hV : (propMap.value "joint").isValid
  · simp
  · cases hS : (propMap.value "joint").toString ext with
    | null => simp [QString.eqLit, QString.isNull]
    | str name =>
      by_cases h1 : name = "Mouse"
      · simp [QString.eqLit, h1]
      · by_cases h2 : name = "Avatar"
        · simp [QString.eqLit, h2]
        · simp [QString.eqLit, QString.isNull, h1, h2]

/-- Witness for the amended C18 at the empty bag: joint is absent and no node is
returned. -/
theorem createTransformNode_no_node_iff_witness :
    (QVariantMap.value [] "parentID").isValid = false
    ∧ (QVariantMap.value [] "joint").isValid = false
    ∧ createTransformNode demoExt [] = none :=
  ⟨by decide, by decide,
    (createTransformNode_no_node_iff demoExt [] (by decide)).mpr (Or.inl (by decide))⟩

/-- C19 on the code: two bags that both have parentID = the session id of the local
avatar and parentJointIndex = 5, and differ only in the extra key
"parentJointIndes", get different joint states (none, and left hand). -/
theorem getPickJointState_depends_on_misspelled_key :
    (QVariantMap.value
        [("parentID", QVariant.uuid (QUuid.mk 7)), ("parentJointIndex", QVariant.int 5)]
        "parentID").toUuid demoExt = demoExt.mySessionUUID
    ∧ QVariantMap.value
        [("parentID", QVariant.uuid (QUuid.mk 7)), ("parentJointIndex", QVariant.int 5),
         ("parentJointIndes", QVariant.int 65532)] "parentID"
      = QVariantMap.value
        [("parentID", QVariant.uuid (QUuid.mk 7)), ("parentJointIndex", QVariant.int 5)]
        "parentID"
    ∧ QVariantMap.value
        [("parentID", QVariant.uuid (QUuid.mk 7)), ("parentJointIndex", QVariant.int 5),
         ("parentJointIndes", QVariant.int 65532)] "parentJointIndex"
      = QVariantMap.value
        [("parentID", QVariant.uuid (QUuid.mk 7)), ("parentJointIndex", QVariant.int 5)]
        "parentJointIndex"
    ∧ getPickJointState demoExt
        [("parentID", QVariant.uuid (QUuid.mk 7)), ("parentJointIndex", QVariant.int 5)]
      = JointState.JOINT_STATE_NONE
    ∧ getPickJointState demoExt
        [("parentID", QVariant.uuid (QUuid.mk 7)), ("parentJointIndex", QVariant.int 5),
         ("parentJointIndes", QVariant.int 65532)]
      = JointState.JOINT_STATE_LEFT_HAND := by
  decide

/-- For a literal that is not empty, the comparison of a string with the literal
holds exactly when the string is the non-null string with that content. -/
theorem QString.eqLit_eq_true_iff (q : QString) (lit : String) (hLit : lit ≠ "") :
    q.eqLit lit = true ↔ q = QString.str lit := by
  cases q with
  | null => simp [QString.eqLit, hLit]
  | str s => simp [QString.eqLit]

/-- C21: for every property bag, if getPickJointState returns JOINT_STATE_MOUSE then
createTransformNode on the same bag returns a mouse node: a query classified as
mouse is never anchored to another parent or to none. -/
theorem createTransformNode_of_mouse_state (ext : Externals F M) (propMap : QVariantMap)
    (hMouse : getPickJointState ext propMap = JointState.JOINT_STATE_MOUSE) :
    createTransformNode ext propMap = some TransformNode.MouseTransformNode := by
  cases hP : (propMap.value "parentID").isValid
  · cases hJ : (propMap.value "joint").isValid
    · simp [getPickJointState, hP, hJ] at hMouse
    · cases hE : ((propMap.value "joint").toString ext).eqLit "Mouse"
      · simp only [getPickJointState, hP, hJ, hE] at hMouse
        revert hMouse
        simp only [Bool.false_eq_true, if_false, if_true]
        split_ifs <;> simp
      · simp [createTransformNode, createTransformNode.fromJoint, hP, hJ, hE]
  · simp only [getPickJointState, hP, if_true] at hMouse
    revert hMouse
    split_ifs <;> simp

/-- Witness for C21 at the bag whose only option is joint = "Mouse". -/
theorem createTransformNode_of_mouse_state_witness :
    getPickJointState demoExt [("joint", QVariant.string (QString.str "Mouse"))]
        = JointState.JOINT_STATE_MOUSE
    ∧ createTransformNode demoExt [("joint", QVariant.string (QString.str "Mouse"))]
        = some TransformNode.MouseTransformNode :=
  ⟨by decide,
    createTransformNode_of_mouse_state demoExt
      [("joint", QVariant.string (QString.str "Mouse"))] (by decide)⟩

/-- C22: for every property bag, when parentID is present the joint option has no
influence on the state getPickJointState returns (putting any value in its place
leaves the state unchanged); when parentID is absent the state is decided by the
joint name alone: mouse for "Mouse", left hand for "_CONTROLLER_LEFTHAND" or
"_CAMERA_RELATIVE_CONTROLLER_LEFTHAND", right hand for "_CONTROLLER_RIGHTHAND" or
"_CAMERA_RELATIVE_CONTROLLER_RIGHTHAND", and none for any other name or when joint
is absent. -/
theorem getPickJointState_by_joint_name (ext : Externals F M) (propMap : QVariantMap) :
    if (propMap.value "parentID").isValid = true then
      ∀ j : QVariant,
        getPickJointState ext (("joint", j) :: propMap) = getPickJointState ext propMap
    else
      getPickJointState ext propMap
        = if (propMap.value "joint").isValid = true then
            (if (propMap.value "joint").toString ext = QString.str "Mouse" then
              JointState.JOINT_STATE_MOUSE
            else if (propMap.value "joint").toString ext = QString.str "_CONTROLLER_LEFTHAND"
                ∨ (propMap.value "joint").toString ext
                  = QString.str "_CAMERA_RELATIVE_CONTROLLER_LEFTHAND" then
              JointState.JOINT_STATE_LEFT_HAND
            else if (propMap.value "joint").toString ext = QString.str "_CONTROLLER_RIGHTHAND"
                ∨ (propMap.value "joint").toString ext
                  = QString.str "_CAMERA_RELATIVE_CONTROLLER_RIGHTHAND" then
              JointState.JOINT_STATE_RIGHT_HAND
            else JointState.JOINT_STATE_NONE)
          else JointState.JOINT_STATE_NONE := by
  cases hP : (propMap.value "parentID").isValid
  · simp only [Bool.false_eq_true, if_false]
    simp only [getPickJointState, hP, Bool.false_eq_true, if_false, Bool.or_eq_true,
      QString.eqLit_eq_true_iff _ "Mouse" (by decide),
      QString.eqLit_eq_true_iff _ "_CONTROLLER_LEFTHAND" (by decide),
      QString.eqLit_eq_true_iff _ "_CAMERA_RELATIVE_CONTROLLER_LEFTHAND" (by decide),
      QString.eqLit_eq_true_iff _ "_CONTROLLER_RIGHTHAND" (by decide),
      QString.eqLit_eq_true_iff _ "_CAMERA_RELATIVE_CONTROLLER_RIGHTHAND" (by decide)]
  · simp only [if_true]
    intro j
    have h1 : QVariantMap.value (("joint", j) :: propMap) "parentID"
        = QVariantMap.value propMap "parentID" :=
      QVariantMap.value_cons_ne "joint" "parentID" j propMap (by decide)
    have h2 : QVariantMap.value (("joint", j) :: propMap) "parentJointIndex"
        = QVariantMap.value propMap "parentJointIndex" :=
      QVariantMap.value_cons_ne "joint" "parentJointIndex" j propMap (by decide)
    have h3 : QVariantMap.value (("joint", j) :: propMap) "parentJointIndes"
        = QVariantMap.value propMap "parentJointIndes" :=
      QVariantMap.value_cons_ne "joint" "parentJointIndes" j propMap (by decide)
    simp only [getPickJointState, h1, h2, h3, hP, if_true]

end Theorems

end PickScriptingInterface
